import Mathlib

/-!
Shallow embedding of the audio subsystem of the repository:
`src/contexts/AudioContext.tsx` (the shared playback context),
`src/components/audio/MusicGenerationPanel.tsx` (music panel and the
sound-effects panel that follows it in the same file), and the
VoiceControlPanel component.

Numbers are modelled as rationals, JS strings as Lean strings,
`null`/`undefined` as `Option`.  The media element (`audioRef.current`)
is modelled as an always-present record: the mount effect at
AudioContext.tsx lines 36-40 creates it before any operation can run,
and every operation guards `if (!audio) return`, so the post-mount
behaviour is the one embedded.  A `loadCount` field counts calls to
`load()` so that "reloads the source" / "does not call load" are
expressible.  The rejection of the `play()` promise is modelled by a
boolean parameter `ok`; the `catch` handler's `console.error` is
modelled by prepending a message to a `consoleErrors` log.
-/

/-- JavaScript whitespace as used by `String.prototype.trim`:
tab, line feed, vertical tab, form feed, carriage return, the line and
paragraph separators, the BOM, and every Unicode space-separator (Zs)
character, that is space, no-break space, ogham space mark U+1680, the en/em
quad family U+2000-U+200A, narrow no-break space U+202F, medium
mathematical space U+205F and ideographic space U+3000. -/
def isJsWhitespace (c : Char) : Bool :=
  c = ' ' || c = '\t' || c = '\n' || c = '\r' || c = '\x0b' || c = '\x0c' ||
  c = '\u00A0' || c = '\u1680' || ('\u2000' ≤ c && c ≤ '\u200A') ||
  c = '\u2028' || c = '\u2029' || c = '\u202F' || c = '\u205F' ||
  c = '\u3000' || c = '\uFEFF'

/-- JavaScript `String.prototype.trim`: drop leading and trailing
whitespace characters. -/
def jsTrim (s : String) : String :=
  String.mk (((s.toList.dropWhile isJsWhitespace).reverse.dropWhile
      isJsWhitespace).reverse)

/-- The `AudioState` record of AudioContext.tsx lines 3-10. -/
structure AudioState where
  currentlyPlayingId : Option String
  currentlyPlayingUrl : Option String
  isPlaying : Bool
  currentTime : ℚ
  duration : ℚ
  volume : ℚ
deriving DecidableEq, Repr

/-- The native media element held in `audioRef`.  `loadCount` counts
calls to `load()`. -/
structure AudioElement where
  src : String
  paused : Bool
  currentTime : ℚ
  volume : ℚ
  loadCount : ℕ
deriving DecidableEq, Repr

/-- The full state of the `AudioProvider`: the media element, the React
state and the console-error log written by the `catch` handler. -/
structure ProviderState where
  audio : AudioElement
  state : AudioState
  consoleErrors : List String
deriving DecidableEq, Repr

/-- Initial React state, AudioContext.tsx lines 26-33. -/
def initialAudioState : AudioState :=
  { currentlyPlayingId := none
    currentlyPlayingUrl := none
    isPlaying := false
    currentTime := 0
    duration := 0
    volume := 0.7 }

/-- The media element right after the mount effect (lines 36-40): a
fresh `Audio()` whose volume was set to `state.volume`. -/
def initialAudioElement : AudioElement :=
  { src := "", paused := true, currentTime := 0, volume := 0.7, loadCount := 0 }

/-- Initial provider state. -/
def initialProviderState : ProviderState :=
  { audio := initialAudioElement, state := initialAudioState, consoleErrors := [] }

/-- `playAudio` (AudioContext.tsx lines 85-105).  When the requested url
differs from `state.currentlyPlayingUrl` the element's `src` is
assigned and `load()` is called (which aborts playback and resets the
position); then `play()` is attempted — `ok` tells whether its promise
resolves; a rejection is caught and logged only.  The state update at
lines 99-104 runs unconditionally. -/
def playAudio (id url : String) (ok : Bool) (s : ProviderState) : ProviderState :=
  let a1 :=
    if s.state.currentlyPlayingUrl = some url then s.audio
    else { s.audio with
            src := url, loadCount := s.audio.loadCount + 1,
            currentTime := 0, paused := true }
  let a2 := if ok then { a1 with paused := false } else a1
  let log :=
    if ok then s.consoleErrors else "Failed to play audio:" :: s.consoleErrors
  { audio := a2
    consoleErrors := log
    state := { s.state with
                currentlyPlayingId := some id
                currentlyPlayingUrl := some url
                isPlaying := true } }

/-- `pauseAudio` (lines 107-113): pause the element, clear `isPlaying`. -/
def pauseAudio (s : ProviderState) : ProviderState :=
  { s with
      audio := { s.audio with paused := true }
      state := { s.state with isPlaying := false } }

/-- `stopAudio` (lines 115-128): pause, rewind the element, clear the
playback fields of the state. -/
def stopAudio (s : ProviderState) : ProviderState :=
  { s with
      audio := { s.audio with paused := true, currentTime := 0 }
      state := { s.state with
                  isPlaying := false
                  currentTime := 0
                  currentlyPlayingId := none
                  currentlyPlayingUrl := none } }

/-- `togglePlayPause` (lines 130-136). -/
def togglePlayPause (id url : String) (ok : Bool) (s : ProviderState) :
    ProviderState :=
  if s.state.currentlyPlayingId = some id ∧ s.state.isPlaying = true then
    pauseAudio s
  else
    playAudio id url ok s

/-- `seekTo` (lines 138-144). -/
def seekTo (t : ℚ) (s : ProviderState) : ProviderState :=
  { s with
      audio := { s.audio with currentTime := t }
      state := { s.state with currentTime := t } }

/-- `setVolume` (lines 146-153): clamp to [0,1], write both the element
volume and the state volume. -/
def setVolume (v : ℚ) (s : ProviderState) : ProviderState :=
  let clampedVolume := max 0 (min 1 v)
  { s with
      audio := { s.audio with volume := clampedVolume }
      state := { s.state with volume := clampedVolume } }

/-- `isCurrentlyPlaying` (lines 155-157). -/
def isCurrentlyPlaying (st : AudioState) (id : String) : Bool :=
  (st.currentlyPlayingId == some id) && st.isPlaying

/-- The operations the context exposes, for reachability statements. -/
inductive AudioOp where
  | play (id url : String) (ok : Bool)
  | pause
  | stop
  | toggle (id url : String) (ok : Bool)
  | seek (t : ℚ)
  | vol (v : ℚ)
deriving DecidableEq, Repr

/-- Apply one operation. -/
def applyOp (s : ProviderState) : AudioOp → ProviderState
  | .play id url ok => playAudio id url ok s
  | .pause => pauseAudio s
  | .stop => stopAudio s
  | .toggle id url ok => togglePlayPause id url ok s
  | .seek t => seekTo t s
  | .vol v => setVolume v s

/-- State reached from the initial provider state by a sequence of
operations. -/
def runOps (ops : List AudioOp) : ProviderState :=
  ops.foldl applyOp initialProviderState

/-- `useAudio` (lines 177-183).  The context value's data part is the
`AudioState`; its method part is the operations above.  `null` context
(no surrounding `AudioProvider`) throws, modelled as `Except.error`. -/
def useAudio (ctx : Option AudioState) : Except String AudioState :=
  match ctx with
  | none => Except.error "useAudio must be used within an AudioProvider"
  | some c => Except.ok c

/-- What `useAudioPlayer` (lines 185-217) reports to its consumer. -/
structure AudioPlayerView where
  isPlaying : Bool
  isActive : Bool
  currentTime : ℚ
  duration : ℚ
deriving DecidableEq, Repr

/-- `useAudioPlayer` derived fields (lines 204-214). -/
def useAudioPlayer (st : AudioState) (id : String) : AudioPlayerView :=
  let isActive := st.currentlyPlayingId == some id
  { isPlaying := isCurrentlyPlaying st id
    isActive := isActive
    currentTime := if isActive then st.currentTime else 0
    duration := if isActive then st.duration else 0 }

/-- A generated music track (MusicGenerationPanel.tsx lines 23-31). -/
structure GeneratedTrack where
  id : String
  prompt : String
  style : String
  mood : String
  duration : ℚ
  audioUrl : Option String
  createdAt : String
deriving DecidableEq, Repr

namespace MGP

/-- Local state of `MusicGenerationPanel` (lines 63-74), together with
its own hidden media element. -/
structure PanelState where
  prompt : String
  selectedStyle : String
  selectedMood : String
  duration : ℚ
  isGenerating : Bool
  error : Option String
  tracks : List GeneratedTrack
  currentTrack : Option GeneratedTrack
  isPlaying : Bool
  currentTime : ℚ
  volume : ℚ
  audio : AudioElement
deriving DecidableEq, Repr

/-- `currentTrack?.id === track.id`: optional chaining yields
`undefined` when there is no current track, and `undefined === id` is
false. -/
def currentTrackIdEq (o : Option GeneratedTrack) (id : String) : Bool :=
  match o with
  | some t => t.id == id
  | none => false

/-- `handleGenerate` (lines 99-126), the whole async run as one step:
whitespace-only prompt returns early; otherwise the mock track
`track-${now}` is prepended, the prompt cleared, the error cleared, and
`finally` leaves `isGenerating` false.  `now` stands for `Date.now()`
and `iso` for `new Date().toISOString()`. -/
def handleGenerate (now iso : String) (s : PanelState) : PanelState :=
  if jsTrim s.prompt = "" then s
  else
    let newTrack : GeneratedTrack :=
      { id := "track-" ++ now
        prompt := s.prompt
        style := s.selectedStyle
        mood := s.selectedMood
        duration := s.duration
        audioUrl := none
        createdAt := iso }
    { s with
        error := none
        tracks := newTrack :: s.tracks
        prompt := ""
        isGenerating := false }

/-- `handlePlayTrack` (lines 128-144). -/
def handlePlayTrack (track : GeneratedTrack) (s : PanelState) : PanelState :=
  if currentTrackIdEq s.currentTrack track.id && s.isPlaying then
    { s with
        audio := { s.audio with paused := true }
        isPlaying := false }
  else
    match track.audioUrl with
    | some url =>
        let sameTrack := currentTrackIdEq s.currentTrack track.id
        let a1 := if sameTrack then s.audio else { s.audio with src := url }
        { s with
            audio := { a1 with paused := false }
            currentTime := if sameTrack then s.currentTime else 0
            currentTrack := some track
            isPlaying := true }
    | none => s

/-- `handleVolumeChange` (lines 154-160): `v` is the value
`parseFloat` produced from the input string; it is stored in the state
and written to the element without clamping. -/
def handleVolumeChange (v : ℚ) (s : PanelState) : PanelState :=
  { s with volume := v, audio := { s.audio with volume := v } }

/-- `disabled={isGenerating || !prompt.trim()}` on the Generate Music
button (line 263): `!str` is true exactly when the string is empty. -/
def generateDisabled (s : PanelState) : Bool :=
  s.isGenerating || (jsTrim s.prompt == "")

/-- A concrete panel state matching the initial hook values. -/
def examplePanelState : PanelState :=
  { prompt := ""
    selectedStyle := "cinematic"
    selectedMood := "tense"
    duration := 30
    isGenerating := false
    error := none
    tracks := []
    currentTrack := none
    isPlaying := false
    currentTime := 0
    volume := 0.7
    audio := initialAudioElement }

end MGP

/-- A generated sound effect (SoundEffectsPanel, lines 473-480 of the
same source file). -/
structure GeneratedSound where
  id : String
  prompt : String
  category : String
  duration : ℚ
  audioUrl : Option String
  createdAt : String
deriving DecidableEq, Repr

namespace SFX

/-- Local state of `SoundEffectsPanel` (lines 504-511). -/
structure PanelState where
  prompt : String
  category : String
  duration : ℚ
  isGenerating : Bool
  error : Option String
  sounds : List GeneratedSound
  playingSoundId : Option String
  audio : AudioElement
deriving DecidableEq, Repr

/-- `handleGenerate` of the sound-effects panel (lines 513-539). -/
def handleGenerate (now iso : String) (s : PanelState) : PanelState :=
  if jsTrim s.prompt = "" then s
  else
    let newSound : GeneratedSound :=
      { id := "sfx-" ++ now
        prompt := s.prompt
        category := s.category
        duration := s.duration
        audioUrl := none
        createdAt := iso }
    { s with
        error := none
        sounds := newSound :: s.sounds
        prompt := ""
        isGenerating := false }

/-- `handlePlaySound` (lines 541-553). -/
def handlePlaySound (sound : GeneratedSound) (s : PanelState) : PanelState :=
  if s.playingSoundId = some sound.id then
    { s with
        audio := { s.audio with paused := true }
        playingSoundId := none }
  else
    match sound.audioUrl with
    | some url =>
        { s with
            audio := { s.audio with src := url, paused := false }
            playingSoundId := some sound.id }
    | none => s

/-- `disabled={isGenerating || !prompt.trim()}` on the Generate Sound
button (line 627). -/
def generateDisabled (s : PanelState) : Bool :=
  s.isGenerating || (jsTrim s.prompt == "")

/-- A concrete panel state matching the initial hook values. -/
def examplePanelState : PanelState :=
  { prompt := ""
    category := "nature"
    duration := 3
    isGenerating := false
    error := none
    sounds := []
    playingSoundId := none
    audio := initialAudioElement }

end SFX

/-- Voice settings of a `VoiceProfile` (VoiceControlPanel). -/
structure VoiceSettings where
  stability : ℚ
  similarityBoost : ℚ
  style : ℚ
  useSpeakerBoost : Bool
deriving DecidableEq, Repr

/-- A `VoiceProfile` of the VoiceControlPanel. -/
structure VoiceProfile where
  id : String
  name : String
  characterName : Option String
  description : Option String
  previewUrl : Option String
  category : String
  settings : VoiceSettings
deriving DecidableEq, Repr

namespace VCP

/-- Local state of `VoiceControlPanel`. -/
structure PanelState where
  voices : List VoiceProfile
  isLoading : Bool
  error : Option String
  showCloneDialog : Bool
  playingVoiceId : Option String
  cloneName : String
  cloneCharacter : String
  isCloning : Bool
  audio : AudioElement
deriving DecidableEq, Repr

/-- `handleCloneVoice` (VoiceControlPanel, lines 131-162 of its
source): whitespace-only name returns early; otherwise the mock voice
`voice-${now}` is appended, the dialog closed, the name and character
fields cleared, and `finally` leaves `isCloning` false.
`cloneCharacter || undefined` makes an empty character name
`undefined`. -/
def handleCloneVoice (now : String) (s : PanelState) : PanelState :=
  if jsTrim s.cloneName = "" then s
  else
    let newVoice : VoiceProfile :=
      { id := "voice-" ++ now
        name := s.cloneName
        characterName :=
          if s.cloneCharacter = "" then none else some s.cloneCharacter
        description := none
        previewUrl := none
        category := "cloned"
        settings :=
          { stability := 0.5, similarityBoost := 0.75, style := 0,
            useSpeakerBoost := true } }
    { s with
        voices := s.voices ++ [newVoice]
        showCloneDialog := false
        cloneName := ""
        cloneCharacter := ""
        isCloning := false }

/-- `disabled={isCloning || !cloneName.trim()}` on the Clone Voice
button. -/
def cloneDisabled (s : PanelState) : Bool :=
  s.isCloning || (jsTrim s.cloneName == "")

/-- A concrete panel state matching the initial hook values. -/
def examplePanelState : PanelState :=
  { voices := []
    isLoading := false
    error := none
    showCloneDialog := true
    playingVoiceId := none
    cloneName := ""
    cloneCharacter := ""
    isCloning := false
    audio := initialAudioElement }

end VCP

/-- A concrete track with an audio url, for witnesses. -/
def exampleTrack : GeneratedTrack :=
  { id := "track-1", prompt := "chase scene", style := "cinematic",
    mood := "tense", duration := 30, audioUrl := some "http://x/a.mp3",
    createdAt := "2026-01-01" }

/-- A concrete sound with an audio url, for witnesses. -/
def exampleSound : GeneratedSound :=
  { id := "sfx-1", prompt := "thunder", category := "nature",
    duration := 3, audioUrl := some "http://x/s.mp3",
    createdAt := "2026-01-01" }

/-- Trimming a string made of JS whitespace alone gives the empty
string. -/
theorem jsTrim_of_all_whitespace (s : String)
    (h : ∀ c ∈ s.toList, isJsWhitespace c = true) : jsTrim s = "" := by
  unfold jsTrim
  have h1 : s.toList.dropWhile isJsWhitespace = [] :=
    List.dropWhile_eq_nil_iff.mpr h
  rw [h1]
  rfl

/-- In any audio state, two ids both reported playing are equal: they
both equal `currentlyPlayingId`. -/
theorem isCurrentlyPlaying_unique (st : AudioState) (id1 id2 : String)
    (h1 : isCurrentlyPlaying st id1 = true)
    (h2 : isCurrentlyPlaying st id2 = true) : id1 = id2 := by
  simp only [isCurrentlyPlaying, Bool.and_eq_true, beq_iff_eq] at h1 h2
  have := h1.1.symm.trans h2.1
  exact Option.some.inj this

/-- A provider state in which track "a" with url "u" is playing. -/
def activeProvider : ProviderState := playAudio "a" "u" true initialProviderState

/-- A music-panel state in which `exampleTrack` is current and playing. -/
def activeMGP : MGP.PanelState :=
  { MGP.examplePanelState with currentTrack := some exampleTrack, isPlaying := true }

/-- A sound-effects panel state in which `exampleSound` is marked playing. -/
def activeSFX : SFX.PanelState :=
  { SFX.examplePanelState with playingSoundId := some "sfx-1" }

/-- A music-panel state whose prompt is whitespace only. -/
def wsMGP : MGP.PanelState := { MGP.examplePanelState with prompt := "  " }

/-- A sound-effects panel state whose prompt is whitespace only: an
ideographic space U+3000 followed by an en quad U+2002. -/
def wsSFX : SFX.PanelState :=
  { SFX.examplePanelState with prompt := "\u3000\u2002" }

/-- A voice-panel state whose clone name is whitespace only. -/
def wsVCP : VCP.PanelState := { VCP.examplePanelState with cloneName := "\t " }

/-- Claim C1 counterexample: `handleVolumeChange` does not clamp — for
the input string "2", `parseFloat` gives 2 and the stored volume is 2,
outside [0,1]. -/
theorem handleVolumeChange_not_clamped :
    (MGP.handleVolumeChange 2 MGP.examplePanelState).volume = 2 ∧
    ¬ ((MGP.handleVolumeChange 2 MGP.examplePanelState).volume ≤ 1) := by
  constructor
  · rfl
  · show ¬ ((2 : ℚ) ≤ 1)
    norm_num

/-- Claim C1, amended: `setVolume` stores `max 0 (min 1 v)` in both the
media element and the state, a value always in [0,1]; `handleVolumeChange`
stores the parsed value unchanged, so its stored volume lies in [0,1]
only when the parsed value already does. -/
theorem setVolume_clamps_to_unit_interval
    (s : ProviderState) (p : MGP.PanelState) (v : ℚ) :
    ((setVolume v s).state.volume = max 0 (min 1 v) ∧
     (setVolume v s).audio.volume = max 0 (min 1 v) ∧
     0 ≤ (setVolume v s).state.volume ∧ (setVolume v s).state.volume ≤ 1) ∧
    ((MGP.handleVolumeChange v p).volume = v ∧
     (0 ≤ v → v ≤ 1 →
       0 ≤ (MGP.handleVolumeChange v p).volume ∧
       (MGP.handleVolumeChange v p).volume ≤ 1)) := by
  refine ⟨⟨rfl, rfl, le_max_left 0 _, max_le (by norm_num) (min_le_left 1 v)⟩,
    rfl, ?_⟩
  intro h0 h1
  exact ⟨h0, h1⟩

/-- Witness for `setVolume_clamps_to_unit_interval` at v = 1/2. -/
theorem setVolume_clamps_to_unit_interval_witness :
    (0 : ℚ) ≤ 1/2 ∧ (1/2 : ℚ) ≤ 1 ∧
    (0 ≤ (MGP.handleVolumeChange (1/2) MGP.examplePanelState).volume ∧
     (MGP.handleVolumeChange (1/2) MGP.examplePanelState).volume ≤ 1) :=
  ⟨by norm_num, by norm_num,
   (setVolume_clamps_to_unit_interval initialProviderState
       MGP.examplePanelState (1/2)).2.2 (by norm_num) (by norm_num)⟩

/-- Claim C2: toggling play on the active, playing track pauses it —
`togglePlayPause` reduces to `pauseAudio`, clearing `isPlaying` while
keeping `currentlyPlayingId`; `handlePlayTrack` invoked on the current,
playing track pauses the element and clears the playing flag; and
`handlePlaySound` invoked on the sound marked playing pauses the element
and clears `playingSoundId`. -/
theorem toggle_on_active_playing_pauses
    (s : ProviderState) (id url : String) (ok : Bool)
    (h1 : s.state.currentlyPlayingId = some id) (h2 : s.state.isPlaying = true)
    (p : MGP.PanelState) (track : GeneratedTrack)
    (hp1 : MGP.currentTrackIdEq p.currentTrack track.id = true)
    (hp2 : p.isPlaying = true)
    (q : SFX.PanelState) (sound : GeneratedSound)
    (hq : q.playingSoundId = some sound.id) :
    (togglePlayPause id url ok s = pauseAudio s ∧
     (togglePlayPause id url ok s).state.isPlaying = false ∧
     (togglePlayPause id url ok s).state.currentlyPlayingId = some id) ∧
    ((MGP.handlePlayTrack track p).isPlaying = false ∧
     (MGP.handlePlayTrack track p).audio.paused = true) ∧
    ((SFX.handlePlaySound sound q).playingSoundId = none ∧
     (SFX.handlePlaySound sound q).audio.paused = true) := by
  have ht : togglePlayPause id url ok s = pauseAudio s := by
    unfold togglePlayPause
    rw [if_pos ⟨h1, h2⟩]
  refine ⟨⟨ht, ?_, ?_⟩, ?_, ?_⟩
  · rw [ht]; rfl
  · rw [ht]; exact h1
  · constructor <;> simp [MGP.handlePlayTrack, hp1, hp2]
  · constructor <;> simp [SFX.handlePlaySound, hq]

/-- Witness for `toggle_on_active_playing_pauses` on concrete active
states. -/
theorem toggle_on_active_playing_pauses_witness :
    (togglePlayPause "a" "u" true activeProvider).state.isPlaying = false ∧
    (MGP.handlePlayTrack exampleTrack activeMGP).isPlaying = false ∧
    (SFX.handlePlaySound exampleSound activeSFX).playingSoundId = none :=
  ⟨(toggle_on_active_playing_pauses activeProvider "a" "u" true (by decide)
      (by decide) activeMGP exampleTrack (by decide) (by decide)
      activeSFX exampleSound (by decide)).1.2.1,
   (toggle_on_active_playing_pauses activeProvider "a" "u" true (by decide)
      (by decide) activeMGP exampleTrack (by decide) (by decide)
      activeSFX exampleSound (by decide)).2.1.1,
   (toggle_on_active_playing_pauses activeProvider "a" "u" true (by decide)
      (by decide) activeMGP exampleTrack (by decide) (by decide)
      activeSFX exampleSound (by decide)).2.2.1⟩

/-- Claim C3: in every state reachable from the initial provider state
by the six context operations, at most one id is reported currently
playing: distinct ids are never both `isCurrentlyPlaying`. -/
theorem at_most_one_playing (ops : List AudioOp) (id1 id2 : String)
    (h : id1 ≠ id2) :
    ¬ (isCurrentlyPlaying (runOps ops).state id1 = true ∧
       isCurrentlyPlaying (runOps ops).state id2 = true) := by
  rintro ⟨h1, h2⟩
  exact h (isCurrentlyPlaying_unique (runOps ops).state id1 id2 h1 h2)

/-- Witness for `at_most_one_playing` after one play operation. -/
theorem at_most_one_playing_witness :
    "a" ≠ "b" ∧
    ¬ (isCurrentlyPlaying (runOps [AudioOp.play "a" "u" true]).state "a" = true ∧
       isCurrentlyPlaying (runOps [AudioOp.play "a" "u" true]).state "b" = true) :=
  ⟨by decide, at_most_one_playing [AudioOp.play "a" "u" true] "a" "b" (by decide)⟩

/-- Claim C4: `playAudio` is a total function (the `play()` rejection is
caught, never rethrown); the state update marking the track playing
takes effect whether or not the promise resolves, and a rejection is
surfaced only as a console error message. -/
theorem playAudio_state_update_survives_rejection
    (s : ProviderState) (id url : String) (ok : Bool) :
    (playAudio id url ok s).state.currentlyPlayingId = some id ∧
    (playAudio id url ok s).state.currentlyPlayingUrl = some url ∧
    (playAudio id url ok s).state.isPlaying = true ∧
    (ok = false →
      (playAudio id url ok s).consoleErrors =
        "Failed to play audio:" :: s.consoleErrors) ∧
    (ok = true → (playAudio id url ok s).consoleErrors = s.consoleErrors) := by
  refine ⟨rfl, rfl, rfl, ?_, ?_⟩ <;> intro h <;> simp [playAudio, h]

/-- Witness for `playAudio_state_update_survives_rejection` with a
rejected play promise. -/
theorem playAudio_state_update_survives_rejection_witness :
    (playAudio "a" "u" false initialProviderState).state.isPlaying = true ∧
    (playAudio "a" "u" false initialProviderState).consoleErrors =
      "Failed to play audio:" :: initialProviderState.consoleErrors :=
  ⟨(playAudio_state_update_survives_rejection initialProviderState
      "a" "u" false).2.2.1,
   (playAudio_state_update_survives_rejection initialProviderState
      "a" "u" false).2.2.2.1 rfl⟩

/-- Claim C5: playing a url different from the current one assigns the
element's `src` and calls `load()` (one more load, replacing the prior
source), and the state records only the new track; `pauseAudio` and
`stopAudio` pause the element, and `stopAudio` also rewinds it to 0. -/
theorem play_new_url_reloads_and_stop_pauses
    (s t : ProviderState) (id2 url2 : String) (ok : Bool)
    (h : s.state.currentlyPlayingUrl ≠ some url2) :
    ((playAudio id2 url2 ok s).audio.src = url2 ∧
     (playAudio id2 url2 ok s).audio.loadCount = s.audio.loadCount + 1 ∧
     (playAudio id2 url2 ok s).state.currentlyPlayingId = some id2 ∧
     (playAudio id2 url2 ok s).state.currentlyPlayingUrl = some url2) ∧
    ((pauseAudio t).audio.paused = true ∧
     (stopAudio t).audio.paused = true ∧
     (stopAudio t).audio.currentTime = 0) := by
  refine ⟨⟨?_, ?_, rfl, rfl⟩, rfl, rfl, rfl⟩ <;>
    cases ok <;> simp [playAudio, h]

/-- Witness for `play_new_url_reloads_and_stop_pauses` from the initial
state, whose current url is `none`. -/
theorem play_new_url_reloads_and_stop_pauses_witness :
    (playAudio "b" "u2" true initialProviderState).audio.src = "u2" ∧
    (playAudio "b" "u2" true initialProviderState).audio.loadCount =
      initialProviderState.audio.loadCount + 1 ∧
    (stopAudio initialProviderState).audio.currentTime = 0 :=
  ⟨(play_new_url_reloads_and_stop_pauses initialProviderState
      initialProviderState "b" "u2" true (by decide)).1.1,
   (play_new_url_reloads_and_stop_pauses initialProviderState
      initialProviderState "b" "u2" true (by decide)).1.2.1,
   (play_new_url_reloads_and_stop_pauses initialProviderState
      initialProviderState "b" "u2" true (by decide)).2.2.2⟩

/-- Claim C6: with a whitespace-only prompt (the empty string included),
`handleGenerate` of the music panel, `handleGenerate` of the
sound-effects panel and `handleCloneVoice` of the voice panel all leave
their whole state (in particular the tracks, sounds and voices lists)
unchanged, and the three submit buttons are disabled. -/
theorem whitespace_prompt_generate_noop
    (p : MGP.PanelState) (q : SFX.PanelState) (v : VCP.PanelState)
    (now iso : String)
    (hp : ∀ c ∈ p.prompt.toList, isJsWhitespace c = true)
    (hq : ∀ c ∈ q.prompt.toList, isJsWhitespace c = true)
    (hv : ∀ c ∈ v.cloneName.toList, isJsWhitespace c = true) :
    MGP.handleGenerate now iso p = p ∧
    SFX.handleGenerate now iso q = q ∧
    VCP.handleCloneVoice now v = v ∧
    MGP.generateDisabled p = true ∧
    SFX.generateDisabled q = true ∧
    VCP.cloneDisabled v = true := by
  have e1 := jsTrim_of_all_whitespace p.prompt hp
  have e2 := jsTrim_of_all_whitespace q.prompt hq
  have e3 := jsTrim_of_all_whitespace v.cloneName hv
  refine ⟨?_, ?_, ?_, ?_, ?_, ?_⟩ <;>
    simp [MGP.handleGenerate, SFX.handleGenerate, VCP.handleCloneVoice,
          MGP.generateDisabled, SFX.generateDisabled, VCP.cloneDisabled,
          e1, e2, e3]

/-- Witness for `whitespace_prompt_generate_noop` on concrete
whitespace-only inputs. -/
theorem whitespace_prompt_generate_noop_witness :
    MGP.handleGenerate "1" "d" wsMGP = wsMGP ∧
    SFX.handleGenerate "1" "d" wsSFX = wsSFX ∧
    VCP.handleCloneVoice "1" wsVCP = wsVCP ∧
    VCP.cloneDisabled wsVCP = true :=
  ⟨(whitespace_prompt_generate_noop wsMGP wsSFX wsVCP "1" "d"
      (by decide) (by decide) (by decide)).1,
   (whitespace_prompt_generate_noop wsMGP wsSFX wsVCP "1" "d"
      (by decide) (by decide) (by decide)).2.1,
   (whitespace_prompt_generate_noop wsMGP wsSFX wsVCP "1" "d"
      (by decide) (by decide) (by decide)).2.2.1,
   (whitespace_prompt_generate_noop wsMGP wsSFX wsVCP "1" "d"
      (by decide) (by decide) (by decide)).2.2.2.2.2⟩

/-- Claim C7: playing status has one reference definition —
`isCurrentlyPlaying id` holds exactly when `currentlyPlayingId = id` and
`isPlaying`; `useAudioPlayer` reports `isPlaying = isCurrentlyPlaying id`
and `isActive ↔ currentlyPlayingId = id`. -/
theorem playing_status_from_shared_state (st : AudioState) (id : String) :
    (isCurrentlyPlaying st id = true ↔
      st.currentlyPlayingId = some id ∧ st.isPlaying = true) ∧
    (useAudioPlayer st id).isPlaying = isCurrentlyPlaying st id ∧
    ((useAudioPlayer st id).isActive = true ↔
      st.currentlyPlayingId = some id) := by
  refine ⟨?_, rfl, ?_⟩
  · simp [isCurrentlyPlaying]
  · simp [useAudioPlayer]

/-- Claim C8: `useAudio` with a null context (no surrounding
`AudioProvider`) throws the error "useAudio must be used within an
AudioProvider"; under a provider it returns the context value and never
throws. -/
theorem useAudio_throws_outside_provider :
    useAudio none =
      Except.error "useAudio must be used within an AudioProvider" ∧
    ∀ c : AudioState, useAudio (some c) = Except.ok c :=
  ⟨rfl, fun _ => rfl⟩

/-- Claim C9: `stopAudio` clears exactly the playback fields —
`isPlaying`, `currentTime`, `currentlyPlayingId`, `currentlyPlayingUrl`
become false, 0, none, none — while the state's volume and duration and
the element's volume are untouched; `pauseAudio` changes only
`isPlaying`. -/
theorem stop_and_pause_frame (s : ProviderState) :
    ((stopAudio s).state.isPlaying = false ∧
     (stopAudio s).state.currentTime = 0 ∧
     (stopAudio s).state.currentlyPlayingId = none ∧
     (stopAudio s).state.currentlyPlayingUrl = none ∧
     (stopAudio s).state.volume = s.state.volume ∧
     (stopAudio s).state.duration = s.state.duration ∧
     (stopAudio s).audio.volume = s.audio.volume) ∧
    ((pauseAudio s).state.isPlaying = false ∧
     (pauseAudio s).state.currentlyPlayingId = s.state.currentlyPlayingId ∧
     (pauseAudio s).state.currentlyPlayingUrl = s.state.currentlyPlayingUrl ∧
     (pauseAudio s).state.currentTime = s.state.currentTime ∧
     (pauseAudio s).state.duration = s.state.duration ∧
     (pauseAudio s).state.volume = s.state.volume) :=
  ⟨⟨rfl, rfl, rfl, rfl, rfl, rfl, rfl⟩, rfl, rfl, rfl, rfl, rfl, rfl⟩

/-- Claim C10: `playAudio` compares urls, not ids — when the requested
url equals the current one but the id differs, the element's `src` is
not reassigned, `load()` is not called, the playback position is kept,
and the state's `currentlyPlayingId` becomes the new id. -/
theorem play_same_url_no_reload
    (s : ProviderState) (id2 url : String) (ok : Bool)
    (h1 : s.state.currentlyPlayingUrl = some url)
    (h2 : s.state.currentlyPlayingId ≠ some id2) :
    (playAudio id2 url ok s).audio.src = s.audio.src ∧
    (playAudio id2 url ok s).audio.loadCount = s.audio.loadCount ∧
    (playAudio id2 url ok s).audio.currentTime = s.audio.currentTime ∧
    (playAudio id2 url ok s).state.currentlyPlayingId = some id2 := by
  refine ⟨?_, ?_, ?_, rfl⟩ <;> cases ok <;> simp [playAudio, h1]

/-- Witness for `play_same_url_no_reload`: after playing "a"/"u", play
the same url under id "b". -/
theorem play_same_url_no_reload_witness :
    (playAudio "b" "u" true activeProvider).audio.loadCount =
      activeProvider.audio.loadCount ∧
    (playAudio "b" "u" true activeProvider).state.currentlyPlayingId =
      some "b" :=
  ⟨(play_same_url_no_reload activeProvider "b" "u" true (by decide)
      (by decide)).2.1,
   (play_same_url_no_reload activeProvider "b" "u" true (by decide)
      (by decide)).2.2.2⟩
